import Mathlib

/-!
Shallow embedding of the workflow in `sagemaker-notebook.ipynb`
(philschmid/huggingface-sagemaker-llm-private-vpc).

The notebook is a single linear script: resolve an execution role, download a
model from the Hugging Face hub, assert that safetensors weights are present,
archive the model directory with tar + pigz, upload the archive to S3, resolve
the LLM container image, build an environment configuration, deploy an
endpoint, run two inference requests, and delete the model and endpoint.

External SDK calls (sagemaker, boto3, huggingface_hub) are modelled as oracle
results supplied in an `Env`; the workflow itself is embedded as a pure
function `run` that sequences the cells, aborting at the first uncaught
exception (Python semantics), and records the sequence of external calls it
makes (a `List Call`) together with the process working directory.
-/

/-- Python exception values raised by the underlying SDK calls or by the
workflow's own statements (the assert in the fetch cell, the list index in the
predict cells). -/
inductive PyErr where
  | valueError (msg : String)
  | assertionError (msg : String)
  | indexError (msg : String)
  | sdkError (kind : String) (msg : String)
deriving DecidableEq, Repr

/-- Result of a Python call: a value, or a raised exception. -/
inductive PyResult (α : Type) where
  | ok (a : α)
  | error (e : PyErr)
deriving DecidableEq, Repr

/-- True iff the exception is a ValueError; the only exception class the
notebook ever catches (cell 4: except ValueError). -/
def is_value_error : PyErr → Bool
  | .valueError _ => true
  | _ => false

/-- One element of the result list returned by llm.predict; the notebook only
reads its generated_text field. -/
structure GenResult where
  generated_text : String
deriving DecidableEq, Repr

/-- The external calls the notebook makes, in the order the script issues
them.  The deploy call records the keyword arguments passed at the call site
(initial_instance_count, instance_type, container_startup_health_check_timeout);
the predict call records the inputs string of its payload. -/
inductive Call where
  | sagemaker_get_execution_role
  | iam_get_role
  | snapshot_download
  | tar_pigz
  | s3_upload
  | get_huggingface_llm_image_uri
  | deploy (initial_instance_count : Nat) (itype : String) (health_timeout : Nat)
  | predict (inputs : String)
  | delete_model
  | delete_endpoint
deriving DecidableEq, Repr

/-- Character-list suffix test: true iff s ends with suf.  Used to embed the
pathlib glob pattern matching of the fetch cell. -/
def ends_with_chars (s suf : String) : Bool :=
  (s.toList.drop (s.toList.length - suf.toList.length)) == suf.toList

/-- True iff the file name begins with a dot.  A POSIX shell glob * (used in
the tar cell) does not match such hidden names. -/
def is_hidden (f : String) : Bool :=
  match f.toList with
  | [] => false
  | c :: _ => c == '.'

/-- Embeds the shell glob * as expanded by the shell in the artifact
directory: every entry whose name does not begin with a dot. -/
def glob_star (files : List String) : List String :=
  files.filter (fun f => !(is_hidden f))

/-- Embeds HF_MODEL_ID = "HuggingFaceH4/starchat-beta" (cell 6). -/
def HF_MODEL_ID : String := "HuggingFaceH4/starchat-beta"

/-- Embeds the Python idiom s.split("/")[-1]: the segment of the identifier
after the final slash. -/
def short_name (id : String) : String :=
  String.mk ((id.toList.reverse.takeWhile (fun c => c != '/')).reverse)

/-- Embeds model_tar_dir = Path(HF_MODEL_ID.split("/")[-1]) (cell 6). -/
def model_tar_dir : String := short_name HF_MODEL_ID

/-- Embeds instance_type = "ml.g5.12xlarge" (cell 14). -/
def instance_type : String := "ml.g5.12xlarge"

/-- Embeds number_of_gpu = 4 (cell 14). -/
def number_of_gpu : Nat := 4

/-- Embeds health_check_timeout = 300 (cell 14). -/
def health_check_timeout : Nat := 300

/-- Embeds json.dumps applied to a non-negative Python int: its decimal
digit string. -/
def json_dumps_nat (n : Nat) : String := Nat.repr n

/-- Embeds the config dict of cell 14: the environment passed verbatim to the
served container. -/
def config : List (String × String) :=
  [("HF_MODEL_ID", "/opt/ml/model"),
   ("SM_NUM_GPUS", json_dumps_nat number_of_gpu),
   ("MAX_INPUT_LENGTH", json_dumps_nat 1024),
   ("MAX_TOTAL_TOKENS", json_dumps_nat 2048)]

/-- Embeds query = "How can i filter a list of dictionaries?" (cell 19). -/
def query : String := "How can i filter a list of dictionaries?"

/-- Embeds the prompt f-string of cells 19 and 21 (both cells build the same
string from the same query). -/
def prompt : String :=
  "<|system|>\n You are an Python Expert<|end|>\n<|user|>\n" ++ query ++
    "<|end|>\n<|assistant|>"

/-- Embeds the count of weight files matching the pathlib glob
*.safetensors in the artifact directory (cell 6): names ending in
".safetensors". -/
def count_safetensors (files : List String) : Nat :=
  (files.filter (fun f => ends_with_chars f ".safetensors")).length

/-- Embeds the fetch cell (cell 6): snapshot_download fills the artifact
directory (its outcome, the directory listing after the download, is the
oracle argument), then
assert len(list(model_tar_dir.glob("*.safetensors"))) > 0, "Model download failed"
raises AssertionError when no safetensors weight file is present. -/
def fetchStep (sd : PyResult (List String)) : PyResult (List String) :=
  match sd with
  | .error e => .error e
  | .ok files =>
    if 0 < count_safetensors files then .ok files
    else .error (.assertionError "Model download failed")

/-- The archive produced by the tar cell: where it is created (relative to
the parent directory), its top-level entries, and the compressor used. -/
structure Archive where
  path : String
  entries : List String
  compressor : String
deriving DecidableEq, Repr

/-- Embeds the archive cell (cell 8):
parent_dir = os.getcwd(); os.chdir(model_tar_dir);
tar -cf model.tar.gz --use-compress-program=pigz * ; os.chdir(parent_dir).
The shell expands the glob * (over dirFiles, the directory listing at that
moment, before tar creates model.tar.gz) into bare file names, so the archive
entries are the non-hidden names with no enclosing directory, and
model.tar.gz itself is written inside the artifact directory.  Returns the
archive, the working directory after the cell, and the successive working
directories observed during the cell. -/
def archiveStep (modelDir : String) (dirFiles : List String) (cwd : String) :
    Archive × String × List String :=
  ({ path := modelDir ++ "/model.tar.gz",
     entries := glob_star dirFiles,
     compressor := "pigz" },
   cwd,
   [cwd, cwd ++ "/" ++ modelDir, cwd])

/-- Embeds the destination f-string of cell 10:
desired_s3_uri = f"s3://{bucket}/starchat-beta". -/
def desired_s3_uri (bucket : String) : String :=
  "s3://" ++ bucket ++ "/starchat-beta"

/-- Modelled from the spec: S3Uploader.upload is external sagemaker SDK code
(not part of this repository); the spec describes it as
upload(local path, destination URI) -> resolved URI, modelled here as
returning the destination URI it was given. -/
def S3Uploader_upload (_local_path desired : String) : String := desired

/-- Embeds cell 10: upload model.tar.gz from the artifact directory to the
session bucket; the upload itself may raise (oracle fail), otherwise the
resolved URI is returned. -/
def uploadStep (bucket : String) (fail : Option PyErr) : PyResult String :=
  match fail with
  | some e => .error e
  | none =>
    .ok (S3Uploader_upload (model_tar_dir ++ "/model.tar.gz") (desired_s3_uri bucket))

/-- Embeds the uploaded location string of the run as a function of the
session bucket. -/
def s3_model_uri (bucket : String) : String :=
  S3Uploader_upload (model_tar_dir ++ "/model.tar.gz") (desired_s3_uri bucket)

/-- Embeds one inference request (cells 19 and 21): a single synchronous
llm.predict call with the given payload inputs, whose oracle result is p,
followed by reading res[0]["generated_text"] (an empty result list raises
IndexError).  Returns the delivered text (or the raised exception) and the
calls issued. -/
def inferStep (inputs : String) (p : PyResult (List GenResult)) :
    PyResult String × List Call :=
  match p with
  | .error e => (.error e, [.predict inputs])
  | .ok [] => (.error (.indexError "list index out of range"), [.predict inputs])
  | .ok (g :: _) => (.ok g.generated_text, [.predict inputs])

/-- Embeds the clean-up cell (cell 24):
llm.delete_model() then llm.delete_endpoint(), two plain statements with no
try/except: an exception from the first propagates and the second statement
is never reached.  Returns the outcome and the calls attempted. -/
def teardownStep (dm de : PyResult Unit) : PyResult Unit × List Call :=
  match dm with
  | .error e => (.error e, [.delete_model])
  | .ok _ =>
    match de with
    | .error e => (.error e, [.delete_model, .delete_endpoint])
    | .ok _ => (.ok (), [.delete_model, .delete_endpoint])

/-- Oracle results of the external SDK calls the notebook makes, in source
order.  snapshot_download's ok value is the artifact directory listing after
the download completes; predict's ok value is the result list returned by the
endpoint. -/
structure Env where
  getExecutionRole : PyResult String
  iamGetRole : PyResult String
  default_bucket : String
  snapshot_download : PyResult (List String)
  s3_upload_fail : Option PyErr
  get_image_uri : PyResult String
  deploy : PyResult Unit
  predict1 : PyResult (List GenResult)
  predict2 : PyResult (List GenResult)
  delete_model : PyResult Unit
  delete_endpoint : PyResult Unit

/-- Outcome of a run of the script: the external calls issued in order, the
final working directory, and the final result (the two generated texts, or
the first uncaught exception). -/
structure RunOutcome where
  trace : List Call
  cwd : String
  result : PyResult (String × String)

/-- Embeds the notebook from the fetch cell onward, given that a role was
resolved: fetch + assert (cell 6), archive (cell 8), upload (cell 10), image
lookup (cell 12), config + deploy (cells 14/16), the two predict cells
(19/21), and teardown (cell 24).  Execution is sequential and aborts at the
first uncaught exception. -/
def runAfterRole (env : Env) (cwd0 : String) : RunOutcome :=
  match fetchStep env.snapshot_download with
  | .error e => ⟨[Call.snapshot_download], cwd0, .error e⟩
  | .ok files =>
    match uploadStep env.default_bucket env.s3_upload_fail with
    | .error e =>
      ⟨[Call.snapshot_download, Call.tar_pigz, Call.s3_upload],
       (archiveStep model_tar_dir files cwd0).2.1, .error e⟩
    | .ok _uri =>
      match env.get_image_uri with
      | .error e =>
        ⟨[Call.snapshot_download, Call.tar_pigz, Call.s3_upload,
          Call.get_huggingface_llm_image_uri],
         (archiveStep model_tar_dir files cwd0).2.1, .error e⟩
      | .ok _img =>
        match env.deploy with
        | .error e =>
          ⟨[Call.snapshot_download, Call.tar_pigz, Call.s3_upload,
            Call.get_huggingface_llm_image_uri,
            Call.deploy 1 instance_type health_check_timeout],
           (archiveStep model_tar_dir files cwd0).2.1, .error e⟩
        | .ok _ =>
          match env.predict1 with
          | .error e =>
            ⟨[Call.snapshot_download, Call.tar_pigz, Call.s3_upload,
              Call.get_huggingface_llm_image_uri,
              Call.deploy 1 instance_type health_check_timeout,
              Call.predict prompt],
             (archiveStep model_tar_dir files cwd0).2.1, .error e⟩
          | .ok [] =>
            ⟨[Call.snapshot_download, Call.tar_pigz, Call.s3_upload,
              Call.get_huggingface_llm_image_uri,
              Call.deploy 1 instance_type health_check_timeout,
              Call.predict prompt],
             (archiveStep model_tar_dir files cwd0).2.1,
             .error (.indexError "list index out of range")⟩
          | .ok (g1 :: _) =>
            match env.predict2 with
            | .error e =>
              ⟨[Call.snapshot_download, Call.tar_pigz, Call.s3_upload,
                Call.get_huggingface_llm_image_uri,
                Call.deploy 1 instance_type health_check_timeout,
                Call.predict prompt, Call.predict prompt],
               (archiveStep model_tar_dir files cwd0).2.1, .error e⟩
            | .ok [] =>
              ⟨[Call.snapshot_download, Call.tar_pigz, Call.s3_upload,
                Call.get_huggingface_llm_image_uri,
                Call.deploy 1 instance_type health_check_timeout,
                Call.predict prompt, Call.predict prompt],
               (archiveStep model_tar_dir files cwd0).2.1,
               .error (.indexError "list index out of range")⟩
            | .ok (g2 :: _) =>
              match env.delete_model with
              | .error e =>
                ⟨[Call.snapshot_download, Call.tar_pigz, Call.s3_upload,
                  Call.get_huggingface_llm_image_uri,
                  Call.deploy 1 instance_type health_check_timeout,
                  Call.predict prompt, Call.predict prompt, Call.delete_model],
                 (archiveStep model_tar_dir files cwd0).2.1, .error e⟩
              | .ok _ =>
                match env.delete_endpoint with
                | .error e =>
                  ⟨[Call.snapshot_download, Call.tar_pigz, Call.s3_upload,
                    Call.get_huggingface_llm_image_uri,
                    Call.deploy 1 instance_type health_check_timeout,
                    Call.predict prompt, Call.predict prompt,
                    Call.delete_model, Call.delete_endpoint],
                   (archiveStep model_tar_dir files cwd0).2.1, .error e⟩
                | .ok _ =>
                  ⟨[Call.snapshot_download, Call.tar_pigz, Call.s3_upload,
                    Call.get_huggingface_llm_image_uri,
                    Call.deploy 1 instance_type health_check_timeout,
                    Call.predict prompt, Call.predict prompt,
                    Call.delete_model, Call.delete_endpoint],
                   (archiveStep model_tar_dir files cwd0).2.1,
                   .ok (g1.generated_text, g2.generated_text)⟩

/-- Embeds the whole notebook run.  Cell 4 resolves the role:
try: role = sagemaker.get_execution_role()
except ValueError: role = iam.get_role(RoleName=...)["Role"]["Arn"]
so only a ValueError from get_execution_role is caught (handled by the IAM
fallback); every other exception, and any exception of the fallback itself,
propagates and aborts the run. -/
def run (env : Env) (cwd0 : String) : RunOutcome :=
  match env.getExecutionRole with
  | .ok _ =>
    ⟨Call.sagemaker_get_execution_role :: (runAfterRole env cwd0).trace,
     (runAfterRole env cwd0).cwd, (runAfterRole env cwd0).result⟩
  | .error (.valueError _) =>
    match env.iamGetRole with
    | .ok _ =>
      ⟨Call.sagemaker_get_execution_role :: Call.iam_get_role ::
         (runAfterRole env cwd0).trace,
       (runAfterRole env cwd0).cwd, (runAfterRole env cwd0).result⟩
    | .error e2 =>
      ⟨[Call.sagemaker_get_execution_role, Call.iam_get_role], cwd0, .error e2⟩
  | .error e => ⟨[Call.sagemaker_get_execution_role], cwd0, .error e⟩

/-- True iff the call is the deploy call. -/
def is_deploy : Call → Bool
  | .deploy _ _ _ => true
  | _ => false

/-- True iff the call is a predict call. -/
def is_predict : Call → Bool
  | .predict _ => true
  | _ => false

lemma run_trace_shape (env : Env) (cwd0 : String) :
    (run env cwd0).trace = [Call.sagemaker_get_execution_role]
    ∨ (run env cwd0).trace = [Call.sagemaker_get_execution_role, Call.iam_get_role]
    ∨ (run env cwd0).trace
        = Call.sagemaker_get_execution_role :: (runAfterRole env cwd0).trace
    ∨ (run env cwd0).trace
        = Call.sagemaker_get_execution_role :: Call.iam_get_role ::
            (runAfterRole env cwd0).trace := by
  unfold run
  repeat' split
  all_goals simp

lemma runAfterRole_deploy_mem (env : Env) (cwd0 : String) (n : Nat) (t : String)
    (h0 : Nat) (hm : Call.deploy n t h0 ∈ (runAfterRole env cwd0).trace) :
    n = 1 ∧ t = instance_type ∧ h0 = health_check_timeout := by
  unfold runAfterRole at hm
  repeat' split at hm
  all_goals simp_all

lemma runAfterRole_predict_mem (env : Env) (cwd0 : String) (s : String)
    (hm : Call.predict s ∈ (runAfterRole env cwd0).trace) : s = prompt := by
  unfold runAfterRole at hm
  repeat' split at hm
  all_goals simp_all

lemma runAfterRole_countP_deploy (env : Env) (cwd0 : String) :
    ((runAfterRole env cwd0).trace.countP is_deploy) ≤ 1 := by
  unfold runAfterRole
  repeat' split
  all_goals simp [List.countP_cons, is_deploy]

lemma runAfterRole_countP_predict (env : Env) (cwd0 : String) :
    ((runAfterRole env cwd0).trace.countP is_predict) ≤ 2 := by
  unfold runAfterRole
  repeat' split
  all_goals simp [List.countP_cons, is_predict]

/-- C4: given the run's instance parameters (GPU count 4, max input length
1024, max total tokens 2048), the deployment configuration map contains
exactly the keys HF_MODEL_ID, SM_NUM_GPUS, MAX_INPUT_LENGTH, MAX_TOTAL_TOKENS,
each mapped to a textual value, the numeric parameters serialized as decimal
strings ("4", "1024", "2048") and HF_MODEL_ID set to "/opt/ml/model". -/
theorem C4_config_exact_keys_and_values :
    config.map Prod.fst
      = ["HF_MODEL_ID", "SM_NUM_GPUS", "MAX_INPUT_LENGTH", "MAX_TOTAL_TOKENS"]
    ∧ config = [("HF_MODEL_ID", "/opt/ml/model"), ("SM_NUM_GPUS", "4"),
                ("MAX_INPUT_LENGTH", "1024"), ("MAX_TOTAL_TOKENS", "2048")]
    ∧ number_of_gpu = 4 ∧ json_dumps_nat number_of_gpu = "4" := by
  decide

/-- C5: for the model identifier of the run, the fetch-archive-upload sequence
yields a location string that is the configured storage bucket prefix followed
by the model's short name (the segment of HF_MODEL_ID after the final slash):
the resolved URI equals "s3://" ++ bucket ++ "/" ++ short name, for every
bucket. -/
theorem C5_uri_bucket_prefixed_shortname_suffixed (bucket : String) :
    uploadStep bucket none
      = PyResult.ok ("s3://" ++ bucket ++ ("/" ++ short_name HF_MODEL_ID))
    ∧ s3_model_uri bucket = "s3://" ++ bucket ++ ("/" ++ short_name HF_MODEL_ID) := by
  have h : ("/" ++ short_name HF_MODEL_ID) = "/starchat-beta" := by decide
  rw [h]
  exact ⟨rfl, rfl⟩

/-- C2 counterexample: an artifact directory that passes the fetch assertion
(it holds a safetensors weight file) but also holds the hidden file
.gitattributes, which the shell glob * omits from the archive, so the
archive's flattened listing is not equal to the source file set. -/
theorem C2_counterexample :
    0 < count_safetensors [".gitattributes", "model-00001-of-00005.safetensors"]
    ∧ ".gitattributes"
        ∈ ([".gitattributes", "model-00001-of-00005.safetensors"] : List String)
    ∧ ".gitattributes"
        ∉ (archiveStep "starchat-beta"
            [".gitattributes", "model-00001-of-00005.safetensors"]
            "/home/user").1.entries := by
  decide

/-- C2 amended: for every artifact directory, the archive is produced with
the parallel compressor pigz and its top-level entries are exactly the
non-hidden source file names themselves (no enclosing directory): a file is
an archive entry iff it is a source file whose name does not begin with a
dot; hence the extracted flattened listing equals the source file set
whenever no hidden file is present. -/
theorem C2_archive_flat_pigz (modelDir : String) (files : List String)
    (cwd : String) :
    (archiveStep modelDir files cwd).1.compressor = "pigz"
    ∧ (archiveStep modelDir files cwd).1.entries = glob_star files
    ∧ (∀ f, f ∈ (archiveStep modelDir files cwd).1.entries
          ↔ (f ∈ files ∧ is_hidden f = false)) := by
  refine ⟨rfl, rfl, ?_⟩
  intro f
  have h : (archiveStep modelDir files cwd).1.entries = glob_star files := rfl
  rw [h]
  simp [glob_star, List.mem_filter]

/-- C9 counterexample: a run whose artifact directory has no pre-existing
archive but holds the hidden file .gitattributes: the archive's entry set is
not exactly the fetched artifact files, because the shell glob * omits
hidden names. -/
theorem C9_counterexample :
    "model.tar.gz" ∉ ([".gitattributes", "w.safetensors"] : List String)
    ∧ ".gitattributes" ∈ ([".gitattributes", "w.safetensors"] : List String)
    ∧ ".gitattributes"
        ∉ (archiveStep model_tar_dir [".gitattributes", "w.safetensors"]
            "/home/user").1.entries := by
  decide

/-- C9 amended: when the artifact directory contains no pre-existing archive,
model.tar.gz is created inside the artifact directory itself (not the
parent), it contains no entry for model.tar.gz (the shell glob is expanded
before tar creates the archive file), and its entry set is exactly the
non-hidden fetched artifact files. -/
theorem C9_archive_location_no_self_entry (files : List String) (cwd : String)
    (h : "model.tar.gz" ∉ files) :
    (archiveStep model_tar_dir files cwd).1.path = model_tar_dir ++ "/model.tar.gz"
    ∧ "model.tar.gz" ∉ (archiveStep model_tar_dir files cwd).1.entries
    ∧ (archiveStep model_tar_dir files cwd).1.entries = glob_star files := by
  refine ⟨rfl, ?_, rfl⟩
  have h2 : (archiveStep model_tar_dir files cwd).1.entries = glob_star files := rfl
  rw [h2]
  intro hmem
  exact h (List.mem_filter.mp hmem).1

/-- C9 witness: the amended statement evaluated on a concrete directory
listing without a pre-existing archive. -/
theorem C9_witness :
    (archiveStep model_tar_dir ["config.json", "w.safetensors"] "/home/user").1.path
      = model_tar_dir ++ "/model.tar.gz"
    ∧ "model.tar.gz"
        ∉ (archiveStep model_tar_dir ["config.json", "w.safetensors"] "/home/user").1.entries
    ∧ (archiveStep model_tar_dir ["config.json", "w.safetensors"] "/home/user").1.entries
        = glob_star ["config.json", "w.safetensors"] :=
  C9_archive_location_no_self_entry ["config.json", "w.safetensors"] "/home/user"
    (by decide)

/-- C10: the archiver changes the working directory into the artifact
directory only for the duration of the archive command and restores it (the
cwd values observed during the cell are parent, parent/modelDir, parent); the
working directory after the archiver equals the one before it, and no other
step changes it: every run ends with the working directory it started with. -/
theorem C10_cwd_restored (modelDir : String) (files : List String) (cwd : String) :
    (archiveStep modelDir files cwd).2.1 = cwd
    ∧ (archiveStep modelDir files cwd).2.2 = [cwd, cwd ++ "/" ++ modelDir, cwd]
    ∧ (∀ env cwd0, (run env cwd0).cwd = cwd0) := by
  refine ⟨rfl, rfl, ?_⟩
  intro env cwd0
  unfold run runAfterRole
  repeat' split
  all_goals rfl

/-- C3 counterexample: a run in which the first teardown call
(llm.delete_model) raises: the recorded call trace contains delete_model but
not delete_endpoint — the failure of the first delete prevents the second
from being attempted, contrary to the claim. -/
def envC3ce : Env :=
  { getExecutionRole := .ok "arn:aws:iam::111122223333:role/sagemaker",
    iamGetRole := .ok "arn:aws:iam::111122223333:role/sagemaker_execution_role",
    default_bucket := "sagemaker-us-east-1-111122223333",
    snapshot_download := .ok ["model-00001-of-00005.safetensors", "config.json"],
    s3_upload_fail := none,
    get_image_uri := .ok "huggingface-pytorch-tgi-inference:0.8.2",
    deploy := .ok (),
    predict1 := .ok [⟨"ans1"⟩],
    predict2 := .ok [⟨"ans2"⟩],
    delete_model := .error (.sdkError "ClientError" "AccessDenied"),
    delete_endpoint := .ok () }

/-- C3 counterexample theorem: with the first delete raising, delete_model
appears in the run's call trace but delete_endpoint does not, and the
exception propagates as the run's result. -/
theorem C3_counterexample :
    envC3ce.delete_model = PyResult.error (PyErr.sdkError "ClientError" "AccessDenied")
    ∧ Call.delete_model ∈ (run envC3ce "/home/user").trace
    ∧ Call.delete_endpoint ∉ (run envC3ce "/home/user").trace
    ∧ (run envC3ce "/home/user").result
        = PyResult.error (PyErr.sdkError "ClientError" "AccessDenied") := by
  decide

/-- C3 amended: teardown calls delete_model first and delete_endpoint second
with no exception guard: the endpoint delete is attempted iff the model
delete returns without raising; a failure raised by the first delete
propagates immediately and prevents the second delete from being attempted. -/
theorem C3_teardown_short_circuits (dm de : PyResult Unit) :
    ((teardownStep dm de).2.head? = some Call.delete_model)
    ∧ (∀ e, dm = PyResult.error e →
        (teardownStep dm de).1 = PyResult.error e
        ∧ (teardownStep dm de).2 = [Call.delete_model])
    ∧ (∀ u, dm = PyResult.ok u →
        (teardownStep dm de).2 = [Call.delete_model, Call.delete_endpoint])
    ∧ (∀ e, dm = PyResult.ok () → de = PyResult.error e →
        (teardownStep dm de).1 = PyResult.error e) := by
  refine ⟨?_, ?_, ?_, ?_⟩
  · cases dm <;> cases de <;> rfl
  · rintro e rfl
    exact ⟨rfl, rfl⟩
  · rintro u rfl
    cases de <;> rfl
  · rintro e rfl rfl
    rfl

/-- C3 witness: the amended statement evaluated at concrete teardown
outcomes: a failing first delete stops the sequence, a succeeding first
delete lets both be attempted. -/
theorem C3_witness :
    ((teardownStep (PyResult.error (PyErr.sdkError "ClientError" "denied"))
        (PyResult.ok ())).1 = PyResult.error (PyErr.sdkError "ClientError" "denied")
      ∧ (teardownStep (PyResult.error (PyErr.sdkError "ClientError" "denied"))
          (PyResult.ok ())).2 = [Call.delete_model])
    ∧ (teardownStep (PyResult.ok ()) (PyResult.ok ())).2
        = [Call.delete_model, Call.delete_endpoint] :=
  ⟨(C3_teardown_short_circuits _ _).2.1 _ rfl,
   (C3_teardown_short_circuits _ _).2.2.1 () rfl⟩

/-- C1: once the role is resolved and the download completes leaving the
given directory listing, the run fails fast with the descriptive
AssertionError "Model download failed" and never reaches the archiver iff
zero files matching *.safetensors are present; with at least one such file
present the run continues to the archiver (tar is invoked). -/
theorem C1_fetch_fail_fast_iff_no_safetensors (env : Env) (cwd0 : String)
    (r : String) (files : List String)
    (h1 : env.getExecutionRole = PyResult.ok r)
    (h2 : env.snapshot_download = PyResult.ok files) :
    (((run env cwd0).result
        = PyResult.error (PyErr.assertionError "Model download failed")
      ∧ Call.tar_pigz ∉ (run env cwd0).trace)
      ↔ count_safetensors files = 0)
    ∧ (0 < count_safetensors files → Call.tar_pigz ∈ (run env cwd0).trace) := by
  simp only [run, h1]
  by_cases hc : 0 < count_safetensors files
  · have hne : count_safetensors files ≠ 0 := Nat.pos_iff_ne_zero.mp hc
    have hmem : Call.tar_pigz ∈ (runAfterRole env cwd0).trace := by
      unfold runAfterRole
      simp only [fetchStep, h2, if_pos hc]
      repeat' split
      all_goals simp
    refine ⟨⟨?_, ?_⟩, ?_⟩
    · rintro ⟨-, hnot⟩
      exact absurd (List.mem_cons_of_mem _ hmem) hnot
    · intro h0
      exact absurd h0 hne
    · intro _
      exact List.mem_cons_of_mem _ hmem
  · have h0 : count_safetensors files = 0 := Nat.eq_zero_of_not_pos hc
    have hres : runAfterRole env cwd0
        = ⟨[Call.snapshot_download], cwd0,
           .error (.assertionError "Model download failed")⟩ := by
      unfold runAfterRole
      simp [fetchStep, h2, if_neg hc]
    rw [hres]
    refine ⟨⟨fun _ => h0, fun _ => ⟨rfl, by simp⟩⟩, fun hpos => absurd hpos hc⟩

/-- C1 witness: a run whose download yields one safetensors file: the
fail-fast condition is equivalent to the (false) emptiness condition, and
the archiver is reached. -/
def envC1w : Env :=
  { getExecutionRole := .ok "arn:aws:iam::111122223333:role/sagemaker",
    iamGetRole := .ok "arn:aws:iam::111122223333:role/sagemaker_execution_role",
    default_bucket := "sagemaker-us-east-1-111122223333",
    snapshot_download := .ok ["model-00001-of-00005.safetensors", "config.json"],
    s3_upload_fail := none,
    get_image_uri := .ok "huggingface-pytorch-tgi-inference:0.8.2",
    deploy := .ok (),
    predict1 := .ok [⟨"ans1"⟩],
    predict2 := .ok [⟨"ans2"⟩],
    delete_model := .ok (),
    delete_endpoint := .ok () }

/-- C1 witness theorem: the claim theorem instantiated at envC1w. -/
theorem C1_witness :
    (((run envC1w "/home/user").result
        = PyResult.error (PyErr.assertionError "Model download failed")
      ∧ Call.tar_pigz ∉ (run envC1w "/home/user").trace)
      ↔ count_safetensors ["model-00001-of-00005.safetensors", "config.json"] = 0)
    ∧ (0 < count_safetensors ["model-00001-of-00005.safetensors", "config.json"]
        → Call.tar_pigz ∈ (run envC1w "/home/user").trace) :=
  C1_fetch_fail_fast_iff_no_safetensors envC1w "/home/user"
    "arn:aws:iam::111122223333:role/sagemaker"
    ["model-00001-of-00005.safetensors", "config.json"] rfl rfl

lemma runAfterRole_deploy_err (env : Env) (cwd0 : String) (files : List String)
    (e : PyErr)
    (h2 : env.snapshot_download = PyResult.ok files)
    (hc : 0 < count_safetensors files)
    (h3 : env.s3_upload_fail = none)
    (h4 : ∃ img, env.get_image_uri = PyResult.ok img)
    (h5 : env.deploy = PyResult.error e) :
    (runAfterRole env cwd0).result = PyResult.error e
    ∧ (runAfterRole env cwd0).trace
        = [Call.snapshot_download, Call.tar_pigz, Call.s3_upload,
           Call.get_huggingface_llm_image_uri,
           Call.deploy 1 instance_type health_check_timeout] := by
  obtain ⟨img, h4⟩ := h4
  unfold runAfterRole
  simp [fetchStep, uploadStep, h2, h3, h4, h5, hc]

/-- C7: the blocking deploy call receives exactly one scalar timeout, the
health-check timeout of 300 seconds: every deploy call in any run's trace
carries container_startup_health_check_timeout = health_check_timeout = 300
(with initial_instance_count 1 and the run's instance type); at most one
deploy call is ever made; and when the platform fails the deploy (e.g. the
health check is not passed in time) the run makes exactly one deploy attempt,
does not retry, and surfaces the provisioning error as its result. -/
theorem C7_deploy_single_timeout (env : Env) (cwd0 : String) :
    health_check_timeout = 300
    ∧ (∀ n t h0, Call.deploy n t h0 ∈ (run env cwd0).trace →
        n = 1 ∧ t = instance_type ∧ h0 = health_check_timeout)
    ∧ ((run env cwd0).trace.countP is_deploy ≤ 1)
    ∧ (∀ r files e, env.getExecutionRole = PyResult.ok r →
        env.snapshot_download = PyResult.ok files →
        0 < count_safetensors files →
        env.s3_upload_fail = none →
        (∃ img, env.get_image_uri = PyResult.ok img) →
        env.deploy = PyResult.error e →
        (run env cwd0).result = PyResult.error e
        ∧ (run env cwd0).trace.countP is_deploy = 1) := by
  refine ⟨rfl, ?_, ?_, ?_⟩
  · intro n t h0 hm
    rcases run_trace_shape env cwd0 with h | h | h | h
    · rw [h] at hm
      simp at hm
    · rw [h] at hm
      simp at hm
    · rw [h] at hm
      simp only [List.mem_cons] at hm
      rcases hm with h' | hm
      · simp at h'
      · exact runAfterRole_deploy_mem env cwd0 n t h0 hm
    · rw [h] at hm
      simp only [List.mem_cons] at hm
      rcases hm with h' | hm
      · simp at h'
      rcases hm with h' | hm
      · simp at h'
      · exact runAfterRole_deploy_mem env cwd0 n t h0 hm
  · rcases run_trace_shape env cwd0 with h | h | h | h <;> rw [h]
    · decide
    · decide
    · simpa [List.countP_cons, is_deploy] using runAfterRole_countP_deploy env cwd0
    · simpa [List.countP_cons, is_deploy] using runAfterRole_countP_deploy env cwd0
  · intro r files e h1 h2 hc h3 h4 h5
    have hd := runAfterRole_deploy_err env cwd0 files e h2 hc h3 h4 h5
    simp only [run, h1]
    refine ⟨hd.1, ?_⟩
    rw [hd.2]
    decide

/-- C7 witness: a run whose deploy call fails with the platform's
health-check timeout error: exactly one deploy attempt is recorded and the
error is the run's result. -/
def envC7w : Env :=
  { getExecutionRole := .ok "arn:aws:iam::111122223333:role/sagemaker",
    iamGetRole := .ok "arn:aws:iam::111122223333:role/sagemaker_execution_role",
    default_bucket := "sagemaker-us-east-1-111122223333",
    snapshot_download := .ok ["model-00001-of-00005.safetensors", "config.json"],
    s3_upload_fail := none,
    get_image_uri := .ok "huggingface-pytorch-tgi-inference:0.8.2",
    deploy := .error (.sdkError "UnexpectedStatusException"
        "Endpoint did not pass the health check within 300 seconds"),
    predict1 := .ok [⟨"ans1"⟩],
    predict2 := .ok [⟨"ans2"⟩],
    delete_model := .ok (),
    delete_endpoint := .ok () }

/-- C7 witness theorem: the claim theorem instantiated at envC7w. -/
theorem C7_witness :
    (run envC7w "/home/user").result
      = PyResult.error (PyErr.sdkError "UnexpectedStatusException"
          "Endpoint did not pass the health check within 300 seconds")
    ∧ (run envC7w "/home/user").trace.countP is_deploy = 1 :=
  (C7_deploy_single_timeout envC7w "/home/user").2.2.2
    "arn:aws:iam::111122223333:role/sagemaker"
    ["model-00001-of-00005.safetensors", "config.json"] _
    rfl rfl (by decide) rfl
    ⟨"huggingface-pytorch-tgi-inference:0.8.2", rfl⟩ rfl

/-- C8: each inference request issues exactly one synchronous predict call
(one predict call is recorded whatever the outcome, so there is no retry and
no partial-result handling: an error outcome is delivered unchanged), and the
text delivered is the generated_text field of the first candidate of the
returned result list; at the whole-run level at most two predict calls (one
per request cell) ever occur, each carrying the notebook's prompt. -/
theorem C8_single_predict_first_candidate (inputs : String)
    (p : PyResult (List GenResult)) :
    (inferStep inputs p).2 = [Call.predict inputs]
    ∧ (∀ g gs, p = PyResult.ok (g :: gs) →
        (inferStep inputs p).1 = PyResult.ok g.generated_text)
    ∧ (∀ e, p = PyResult.error e → (inferStep inputs p).1 = PyResult.error e)
    ∧ (∀ env cwd0, ((run env cwd0).trace.countP is_predict ≤ 2)
        ∧ (∀ s, Call.predict s ∈ (run env cwd0).trace → s = prompt)) := by
  refine ⟨?_, ?_, ?_, ?_⟩
  · cases p with
    | error e => rfl
    | ok l => cases l <;> rfl
  · rintro g gs rfl
    rfl
  · rintro e rfl
    rfl
  · intro env cwd0
    constructor
    · rcases run_trace_shape env cwd0 with h | h | h | h <;> rw [h]
      · decide
      · decide
      · simpa [List.countP_cons, is_predict] using runAfterRole_countP_predict env cwd0
      · simpa [List.countP_cons, is_predict] using runAfterRole_countP_predict env cwd0
    · intro s hm
      rcases run_trace_shape env cwd0 with h | h | h | h
      · rw [h] at hm
        simp at hm
      · rw [h] at hm
        simp at hm
      · rw [h] at hm
        simp only [List.mem_cons] at hm
        rcases hm with h' | hm
        · simp at h'
        · exact runAfterRole_predict_mem env cwd0 s hm
      · rw [h] at hm
        simp only [List.mem_cons] at hm
        rcases hm with h' | hm
        · simp at h'
        rcases hm with h' | hm
        · simp at h'
        · exact runAfterRole_predict_mem env cwd0 s hm

/-- C8 witness: the claim theorem instantiated at a non-empty result list
(the first candidate's text is delivered) and at an erroring predict call
(the error is delivered unchanged, still with a single call recorded). -/
theorem C8_witness :
    (inferStep prompt (PyResult.ok [⟨"Use the filter() function."⟩])).1
      = PyResult.ok "Use the filter() function."
    ∧ (inferStep prompt
        (PyResult.error (PyErr.sdkError "ModelError" "internal error"))).1
      = PyResult.error (PyErr.sdkError "ModelError" "internal error")
    ∧ (inferStep prompt
        (PyResult.error (PyErr.sdkError "ModelError" "internal error"))).2
      = [Call.predict prompt] :=
  ⟨(C8_single_predict_first_candidate prompt
      (PyResult.ok [⟨"Use the filter() function."⟩])).2.1
      ⟨"Use the filter() function."⟩ [] rfl,
   (C8_single_predict_first_candidate prompt
      (PyResult.error (PyErr.sdkError "ModelError" "internal error"))).2.2.1
      _ rfl,
   (C8_single_predict_first_candidate prompt
      (PyResult.error (PyErr.sdkError "ModelError" "internal error"))).1⟩

/-- C6 counterexample: get_execution_role raises a ValueError (the missing
role / wrong-identity case of the error taxonomy) yet the run does not
propagate it: the workflow catches it in the try/except of the setup cell,
falls back to the IAM lookup, and completes successfully. -/
def envC6ce : Env :=
  { getExecutionRole := .error (.valueError
      "The current AWS identity is not a role"),
    iamGetRole := .ok "arn:aws:iam::111122223333:role/sagemaker_execution_role",
    default_bucket := "sagemaker-us-east-1-111122223333",
    snapshot_download := .ok ["model-00001-of-00005.safetensors", "config.json"],
    s3_upload_fail := none,
    get_image_uri := .ok "huggingface-pytorch-tgi-inference:0.8.2",
    deploy := .ok (),
    predict1 := .ok [⟨"ans1"⟩],
    predict2 := .ok [⟨"ans2"⟩],
    delete_model := .ok (),
    delete_endpoint := .ok () }

/-- C6 counterexample theorem: an exception raised by an underlying SDK call
is caught and translated into a fallback, so the run succeeds instead of
propagating the error. -/
theorem C6_counterexample :
    envC6ce.getExecutionRole
      = PyResult.error (PyErr.valueError "The current AWS identity is not a role")
    ∧ (run envC6ce "/home/user").result = PyResult.ok ("ans1", "ans2")
    ∧ Call.iam_get_role ∈ (run envC6ce "/home/user").trace := by
  decide

/-- C6 amended: the workflow catches exactly one exception: a ValueError
raised by get_execution_role, handled by falling back to iam.get_role (after
which the run proceeds normally); a non-ValueError from get_execution_role,
an exception from the fallback itself, and every exception raised by any
later call — snapshot_download, the missing-weight assertion, the S3 upload,
the image lookup, the deploy (provisioning timeout), either predict call
(inference request error), and either delete call — propagate unchanged as
the run's result. -/
theorem C6_only_valueerror_caught (env : Env) (cwd0 : String) :
    (∀ e, env.getExecutionRole = PyResult.error e → is_value_error e = false →
       (run env cwd0).result = PyResult.error e)
    ∧ (∀ m r, env.getExecutionRole = PyResult.error (PyErr.valueError m) →
       env.iamGetRole = PyResult.ok r →
       (run env cwd0).result = (runAfterRole env cwd0).result)
    ∧ (∀ m e2, env.getExecutionRole = PyResult.error (PyErr.valueError m) →
       env.iamGetRole = PyResult.error e2 →
       (run env cwd0).result = PyResult.error e2)
    ∧ (∀ r e, env.getExecutionRole = PyResult.ok r →
       env.snapshot_download = PyResult.error e →
       (run env cwd0).result = PyResult.error e)
    ∧ (∀ r files, env.getExecutionRole = PyResult.ok r →
       env.snapshot_download = PyResult.ok files →
       count_safetensors files = 0 →
       (run env cwd0).result
         = PyResult.error (PyErr.assertionError "Model download failed"))
    ∧ (∀ r files e, env.getExecutionRole = PyResult.ok r →
       env.snapshot_download = PyResult.ok files →
       0 < count_safetensors files →
       env.s3_upload_fail = some e →
       (run env cwd0).result = PyResult.error e)
    ∧ (∀ r files e, env.getExecutionRole = PyResult.ok r →
       env.snapshot_download = PyResult.ok files →
       0 < count_safetensors files →
       env.s3_upload_fail = none →
       env.get_image_uri = PyResult.error e →
       (run env cwd0).result = PyResult.error e)
    ∧ (∀ r files img e, env.getExecutionRole = PyResult.ok r →
       env.snapshot_download = PyResult.ok files →
       0 < count_safetensors files →
       env.s3_upload_fail = none →
       env.get_image_uri = PyResult.ok img →
       env.deploy = PyResult.error e →
       (run env cwd0).result = PyResult.error e)
    ∧ (∀ r files img e, env.getExecutionRole = PyResult.ok r →
       env.snapshot_download = PyResult.ok files →
       0 < count_safetensors files →
       env.s3_upload_fail = none →
       env.get_image_uri = PyResult.ok img →
       env.deploy = PyResult.ok () →
       env.predict1 = PyResult.error e →
       (run env cwd0).result = PyResult.error e)
    ∧ (∀ r files img g1 t1 e, env.getExecutionRole = PyResult.ok r →
       env.snapshot_download = PyResult.ok files →
       0 < count_safetensors files →
       env.s3_upload_fail = none →
       env.get_image_uri = PyResult.ok img →
       env.deploy = PyResult.ok () →
       env.predict1 = PyResult.ok (g1 :: t1) →
       env.predict2 = PyResult.error e →
       (run env cwd0).result = PyResult.error e)
    ∧ (∀ r files img g1 t1 g2 t2 e, env.getExecutionRole = PyResult.ok r →
       env.snapshot_download = PyResult.ok files →
       0 < count_safetensors files →
       env.s3_upload_fail = none →
       env.get_image_uri = PyResult.ok img →
       env.deploy = PyResult.ok () →
       env.predict1 = PyResult.ok (g1 :: t1) →
       env.predict2 = PyResult.ok (g2 :: t2) →
       env.delete_model = PyResult.error e →
       (run env cwd0).result = PyResult.error e)
    ∧ (∀ r files img g1 t1 g2 t2 e, env.getExecutionRole = PyResult.ok r →
       env.snapshot_download = PyResult.ok files →
       0 < count_safetensors files →
       env.s3_upload_fail = none →
       env.get_image_uri = PyResult.ok img →
       env.deploy = PyResult.ok () →
       env.predict1 = PyResult.ok (g1 :: t1) →
       env.predict2 = PyResult.ok (g2 :: t2) →
       env.delete_model = PyResult.ok () →
       env.delete_endpoint = PyResult.error e →
       (run env cwd0).result = PyResult.error e) := by
  refine ⟨?_, ?_, ?_, ?_, ?_, ?_, ?_, ?_, ?_, ?_, ?_, ?_⟩
  · intro e h1 hv
    cases e with
    | valueError m => simp [is_value_error] at hv
    | assertionError m => simp [run, h1]
    | indexError m => simp [run, h1]
    | sdkError k m => simp [run, h1]
  · intro m r h1 h2
    simp [run, h1, h2]
  · intro m e2 h1 h2
    simp [run, h1, h2]
  · intro r e h1 h2
    simp [run, runAfterRole, fetchStep, h1, h2]
  · intro r files h1 h2 h0
    simp [run, runAfterRole, fetchStep, h1, h2, h0]
  · intro r files e h1 h2 hc h3
    simp [run, runAfterRole, fetchStep, uploadStep, h1, h2, h3, hc]
  · intro r files e h1 h2 hc h3 h4
    simp [run, runAfterRole, fetchStep, uploadStep, h1, h2, h3, h4, hc]
  · intro r files img e h1 h2 hc h3 h4 h5
    simp [run, runAfterRole, fetchStep, uploadStep, h1, h2, h3, h4, h5, hc]
  · intro r files img e h1 h2 hc h3 h4 h5 h6
    simp [run, runAfterRole, fetchStep, uploadStep, h1, h2, h3, h4, h5, h6, hc]
  · intro r files img g1 t1 e h1 h2 hc h3 h4 h5 h6 h7
    simp [run, runAfterRole, fetchStep, uploadStep, h1, h2, h3, h4, h5, h6, h7, hc]
  · intro r files img g1 t1 g2 t2 e h1 h2 hc h3 h4 h5 h6 h7 h8
    simp [run, runAfterRole, fetchStep, uploadStep,
      h1, h2, h3, h4, h5, h6, h7, h8, hc]
  · intro r files img g1 t1 g2 t2 e h1 h2 hc h3 h4 h5 h6 h7 h8 h9
    simp [run, runAfterRole, fetchStep, uploadStep,
      h1, h2, h3, h4, h5, h6, h7, h8, h9, hc]

/-- C6 witness: a run whose get_execution_role call raises a non-ValueError:
the amended theorem applied at this environment shows the exception is the
run's result, unchanged. -/
def envC6w : Env :=
  { getExecutionRole := .error (.sdkError "ClientError" "Rate exceeded"),
    iamGetRole := .ok "arn:aws:iam::111122223333:role/sagemaker_execution_role",
    default_bucket := "sagemaker-us-east-1-111122223333",
    snapshot_download := .ok ["model-00001-of-00005.safetensors", "config.json"],
    s3_upload_fail := none,
    get_image_uri := .ok "huggingface-pytorch-tgi-inference:0.8.2",
    deploy := .ok (),
    predict1 := .ok [⟨"ans1"⟩],
    predict2 := .ok [⟨"ans2"⟩],
    delete_model := .ok (),
    delete_endpoint := .ok () }

/-- C6 witness theorem: the amended theorem instantiated at envC6w. -/
theorem C6_witness :
    (run envC6w "/home/user").result
      = PyResult.error (PyErr.sdkError "ClientError" "Rate exceeded") :=
  (C6_only_valueerror_caught envC6w "/home/user").1
    (PyErr.sdkError "ClientError" "Rate exceeded") rfl rfl
